import Mathlib

/-!
# Verification of the eye-tracking webcam timer component

This file gives a shallow embedding of `components/WebcamComponent.tsx`
(the single client component of the repository) and proves or refutes the
frozen claims about it.

The component holds React state `timer : Int` (seconds remaining,
initialised to `30 * 60`), `timerRunning : Bool`, and
`faceLandmarker : Option Handle` (the asynchronously loaded detector).
Three pieces of behaviour are embedded:

* the timer `useEffect` (source lines 37-57): while `timerRunning` is true a
  1-second interval runs `setTimer(prev => prev - 1)`; the effect body also
  contains a dead `clearInterval` in its paused branch, and the effect's
  cleanup clears the interval;
* the frame loop `detectFace` (source lines 70-101): if the closure-captured
  `faceLandmarker` is present it awaits `detectForVideo`, clears and redraws
  the canvas, draws one point per landmark of the first face when one was
  detected, sets `timerRunning` to the detection outcome, and only then
  re-arms itself with `requestAnimationFrame`; if the captured handle is
  absent the body does nothing at all (in particular it does not re-arm);
* the display expression (source line 149):
  `Math.floor(timer / 60) + ":" + (timer % 60).toString().padStart(2, '0')`,
  embedded with JavaScript semantics: `Math.floor` of the real quotient is
  integer floor division, and the JavaScript `%` operator is the
  sign-of-dividend (truncated) remainder.
-/

namespace WebcamComponent

/-! ## Session state and the one-second timer loop -/

/-- The mutable session state of the component: `timer` is `remainingSeconds`
(source line 11, initialised to `30 * 60`) and `timerRunning` is
`timerActive` (source line 12). -/
structure SessionState where
  timer : Int
  timerRunning : Bool
deriving DecidableEq, Repr

/-- The initial session state created at mount: `useState(30 * 60)` and
`useState(false)` (source lines 11-12). -/
def initialSession : SessionState := { timer := 30 * 60, timerRunning := false }

/-- The body of the `setInterval` callback (source line 43):
`setTimer(prevTimer => prevTimer - 1)`. No clamping is performed. -/
def setTimerDec (t : Int) : Int := t - 1

/-- One one-second interval tick at the effect level (source lines 40-44):
the decrementing interval exists exactly while `timerRunning` is true, so a
tick decrements `timer` by 1 when `timerRunning` is true and does nothing
otherwise. -/
def secondTick (s : SessionState) : SessionState :=
  if s.timerRunning then { s with timer := setTimerDec s.timer } else s

/-- The effect of a detection outcome on the session state (source lines
94-96): `setTimerRunning(true)` when landmarks were found, `setTimerRunning(false)`
otherwise. -/
def applyDetectionOutcome (present : Bool) (s : SessionState) : SessionState :=
  { s with timerRunning := present }

/-- Run a sequence of one-second ticks; the detection outcome observed during
each second sets `timerRunning` before that second's interval tick fires. -/
def runTicks : List Bool → SessionState → SessionState
  | [], s => s
  | p :: rest, s => runTicks rest (secondTick (applyDetectionOutcome p s))

/-! ## The frame loop `detectFace` -/

/-- A canvas mutation performed by `detectFace`: `ctx.clearRect` (source line
79), `ctx.drawImage` (line 80), or one `ctx.arc`/`ctx.fill` landmark point per
entry of the first face's landmark list (lines 87-92; the floating-point
coordinates passed to `arc` are abstracted away). -/
inductive CanvasOp where
  | clearRect
  | drawImage
  | landmarkPoint
deriving DecidableEq, Repr

/-- What one call of `detectFace` produced: the session state after the call,
the list of canvas mutations in order, and whether `requestAnimationFrame`
was called to re-arm the loop. -/
structure TickResult where
  session : SessionState
  ops : List CanvasOp
  rearm : Bool
deriving DecidableEq, Repr

/-- One call of `detectFace` (source lines 70-101). `captured` is the
`faceLandmarker` value the closure holds; `faceLandmarks` is the
`results.faceLandmarks` list returned by the awaited `detectForVideo` call,
one landmark list per detected face (`α` abstracts the landmark point data).
The entire body sits inside `if (faceLandmarker)`: with an absent handle
nothing runs, not even `requestAnimationFrame` (line 99 is inside the `if`).
With a present handle the canvas is cleared and redrawn, the first face's
landmarks (if any) are plotted, `setTimerRunning` records the outcome, and
the loop re-arms. -/
def detectFaceTick {α : Type} (captured : Option Unit)
    (faceLandmarks : List (List α)) (s : SessionState) : TickResult :=
  match captured with
  | none => { session := s, ops := [], rearm := false }
  | some _ =>
      let drawn := [CanvasOp.clearRect, CanvasOp.drawImage]
      match faceLandmarks with
      | landmarks :: _ =>
          { session := applyDetectionOutcome true s
            ops := drawn ++ landmarks.map (fun _ => CanvasOp.landmarkPoint)
            rearm := true }
      | [] =>
          { session := applyDetectionOutcome false s
            ops := drawn
            rearm := true }

/-- The closure created when `startWebcamAndDetection` runs (source lines
59-106): `detectFace` is defined inside it and closes over the render-time
value of the `faceLandmarker` state. -/
structure ArmedLoop where
  captured : Option Unit
deriving DecidableEq, Repr

/-- Arming the loop (source lines 103-105): the `loadeddata` listener is the
`detectFace` closure, which captured the `faceLandmarker` value current when
`startWebcamAndDetection` was called. -/
def armDetectFace (currentHandle : Option Unit) : ArmedLoop :=
  { captured := currentHandle }

set_option linter.unusedVariables false in
/-- The handle an armed `detectFace` actually consults on a tick (source line
72): the closure reads its captured `faceLandmarker` const; the current value
of the shared state plays no role. -/
def tickHandle (loop : ArmedLoop) (currentHandle : Option Unit) : Option Unit :=
  loop.captured

set_option linter.unusedVariables false in
/-- Modelled from the spec: the spec's required behaviour that "the frame
loop must re-read the handle from shared state every tick (it does not cache
a stale reference)". Stated only to be compared with `tickHandle`, the
behaviour of the source. -/
def tickHandleSpecReread (loop : ArmedLoop) (currentHandle : Option Unit) :
    Option Unit :=
  currentHandle

/-! ## Detection-call events and the single-flight property -/

/-- Events of one asynchronous `detectForVideo` call: its issue and its
resolution. -/
inductive DetEv where
  | start
  | finish
deriving DecidableEq, Repr

/-- The detection-call event trace of a chain of up to `n` frame-loop ticks.
Each tick with a present handle issues `detectForVideo` (source line 77),
`await`s it to completion, and only afterwards reaches
`requestAnimationFrame` (line 99), so the tick contributes `start` then
`finish` before the next tick's events; a tick with an absent handle issues
no call and does not re-arm, ending the chain. -/
def frameLoopTrace (captured : Option Unit) : Nat → List DetEv
  | 0 => []
  | n + 1 =>
      match captured with
      | none => []
      | some _ => DetEv.start :: DetEv.finish :: frameLoopTrace captured n

/-- Scans an event trace with `k` detection calls currently outstanding and
checks that no call is ever issued while another is still outstanding. -/
def singleFlight (k : Nat) : List DetEv → Bool
  | [] => true
  | DetEv.start :: rest => decide (k = 0) && singleFlight (k + 1) rest
  | DetEv.finish :: rest => singleFlight (k - 1) rest

/-! ## Teardown and the component-level system -/

/-- The component-level picture needed to discuss teardown: the session
state, whether the component is still mounted, whether the one-second
interval is currently registered, whether a `requestAnimationFrame` callback
is pending, and the handle captured by the armed `detectFace` closure. -/
structure Sys where
  session : SessionState
  mounted : Bool
  intervalLive : Bool
  frameArmed : Bool
  capturedHandle : Option Unit
deriving DecidableEq, Repr

/-- Component teardown. React runs the timer effect's cleanup (source lines
51-56), which clears the interval. No code cancels the pending
`requestAnimationFrame` callback or removes the `loadeddata` listener, so
`frameArmed` and `capturedHandle` are untouched. -/
def teardown (s : Sys) : Sys :=
  { s with mounted := false, intervalLive := false }

/-- A pending animation-frame callback fires: `detectFace` runs exactly as
embedded by `detectFaceTick` — its body (source lines 70-101) never consults
any mounted flag, so teardown does not alter what it does. -/
def sysFrameTick (faceLandmarks : List (List Unit)) (s : Sys) : Sys :=
  if s.frameArmed then
    let r := detectFaceTick s.capturedHandle faceLandmarks s.session
    { s with session := r.session, frameArmed := r.rearm }
  else s

/-- The one-second interval fires, if it is still registered (source lines
42-44). -/
def sysIntervalTick (s : Sys) : Sys :=
  if s.intervalLive then
    { s with session := { s.session with timer := setTimerDec s.session.timer } }
  else s

/-! ## The time display (source line 149) -/

/-- JavaScript's `String.prototype.padStart(2, '0')`: prepend `'0'`
characters until the string is at least 2 characters long. -/
def padStart2 (str : String) : String :=
  if str.length < 2 then
    String.mk (List.replicate (2 - str.length) '0') ++ str
  else str

/-- `Math.floor(timer / 60)` with JavaScript number semantics: the floor of
the real quotient, i.e. integer floor division. -/
def jsFloorDiv60 (t : Int) : Int := Int.fdiv t 60

/-- JavaScript's `timer % 60`: the truncated (sign-of-dividend) remainder. -/
def jsMod60 (t : Int) : Int := Int.tmod t 60

/-- The seconds field of the display: `(timer % 60).toString().padStart(2, '0')`. -/
def secondsField (t : Int) : String := padStart2 (toString (jsMod60 t))

/-- The display expression on source line 149:
`Math.floor(timer / 60) + ":" + (timer % 60).toString().padStart(2, '0')`.
(JavaScript renders the `-0` arising at negative multiples of 60 as `"0"`,
matching `Int`, where `-0 = 0`.) -/
def displayTime (t : Int) : String :=
  toString (jsFloorDiv60 t) ++ ":" ++ secondsField t

/-- Modelled from the spec: "display string equals
floor(s/60) + ":" + pad2(s % 60)" for `remainingSeconds` s ≥ 0, where pad2
zero-pads to two digits. Stated only to be compared with `displayTime`, the
behaviour of the source. -/
def specFormat (s : Nat) : String :=
  toString (s / 60) ++ ":" ++
    (if s % 60 < 10 then "0" ++ toString (s % 60) else toString (s % 60))

/-- Whether a string consists of exactly two decimal digits, i.e. is a
zero-padded two-digit seconds field. -/
def isTwoPaddedDigits (str : String) : Bool :=
  match str.data with
  | [d1, d2] => d1.isDigit && d2.isDigit
  | _ => false

/-- Split a character list at every colon. -/
def splitAtColons (cs : List Char) : List (List Char) :=
  match cs with
  | [] => [[]]
  | c :: rest =>
      let r := splitAtColons rest
      if c = ':' then [] :: r
      else
        match r with
        | h :: t => (c :: h) :: t
        | [] => [[c]]

/-- Whether a rendered display string is of the form `M:SS` with a two-digit
zero-padded seconds field: exactly one colon, and exactly two decimal digits
after it. -/
def hasTwoDigitSecondsField (str : String) : Bool :=
  match splitAtColons str.data with
  | [_, sec] => isTwoPaddedDigits (String.mk sec)
  | _ => false

/-! ## The timer effect body and its dead `clearInterval` -/

/-- An observable action of the timer effect: registering the decrementing
interval (source line 42), the `clearInterval` inside the paused else-if
branch (line 48), or the `clearInterval` in the effect's cleanup (line 54). -/
inductive EffectAct where
  | setDecInterval
  | clearInBody
  | clearInCleanup
deriving DecidableEq, Repr

/-- The timer effect body (source lines 39-50). The local `interval` starts
as `null`; the running branch registers the decrementing interval; the paused
branch (`!timerRunning && timer !== 0`) runs `if (interval)
clearInterval(interval)` on the local variable, which no prior statement of
that run has assigned. Returns the final value of `interval` together with
the actions performed. -/
def timerEffectBody (timerRunning : Bool) (timer : Int) :
    Option Unit × List EffectAct :=
  let interval : Option Unit := none
  if timerRunning then
    (some (), [EffectAct.setDecInterval])
  else if !timerRunning && timer != 0 then
    if interval.isSome then (interval, [EffectAct.clearInBody])
    else (interval, [])
  else
    (interval, [])

/-- The effect's cleanup (source lines 51-56): clear `interval` if it was
set. -/
def timerEffectCleanup (interval : Option Unit) : List EffectAct :=
  if interval.isSome then [EffectAct.clearInCleanup] else []

/-! ## Helper lemmas -/

/-- Over any outcome sequence, the timer drops by exactly the number of
face-present seconds. -/
lemma runTicks_timer (outcomes : List Bool) (s : SessionState) :
    (runTicks outcomes s).timer = s.timer - outcomes.countP id := by
  induction outcomes generalizing s with
  | nil => simp [runTicks]
  | cons p rest ih =>
      cases p
      · simp [runTicks, secondTick, applyDetectionOutcome, setTimerDec,
          List.countP_cons, ih]
      · simp [runTicks, secondTick, applyDetectionOutcome, setTimerDec,
          List.countP_cons, ih]
        omega

/-- Every outcome of a replicated all-present sequence counts. -/
lemma countP_id_replicate_true (n : Nat) :
    (List.replicate n true).countP id = n := by
  induction n with
  | zero => simp
  | succ k ih => simp [List.replicate_succ, List.countP_cons, ih]

/-- The zero-padded rendering of a natural number below 60 agrees with the
two-digit padding the spec describes. -/
lemma padStart2_repr_lt_60 : ∀ n < 60, padStart2 (Nat.repr n) =
    if n < 10 then "0" ++ Nat.repr n else Nat.repr n := by
  decide

/-- The padded rendering of a negative seconds value in `(-60, 0)` carries a
minus sign, so it is never a two-digit all-digit field. -/
lemma isTwoPaddedDigits_negSucc : ∀ k < 59,
    isTwoPaddedDigits (padStart2 (toString (Int.negSucc k))) = false := by
  decide

/-! ## The claims -/

/-- C1: the countdown decrements `remainingSeconds` by exactly 1 on each
one-second timer tick while `timerActive` is true and leaves it unchanged on
ticks while `timerActive` is false; for the detection-outcome sequence
[present, present, absent, present] over 4 one-second ticks,
`remainingSeconds` decreases by exactly 3 from its starting value. -/
theorem C1_timer_decrements_only_while_active (s : SessionState) :
    ((secondTick s).timer = if s.timerRunning then s.timer - 1 else s.timer) ∧
    (runTicks [true, true, false, true] s).timer = s.timer - 3 := by
  constructor
  · by_cases h : s.timerRunning <;> simp [secondTick, setTimerDec, h]
  · have h := runTicks_timer [true, true, false, true] s
    simpa [List.countP_cons] using h

/-- C2: the claimed invariant "remainingSeconds is never decremented below 0"
is the spec's intent, but the code's decrement
`setTimer(prevTimer => prevTimer - 1)` is unclamped: starting from the
initial 1800 seconds, 1801 consecutive face-present one-second ticks drive
`remainingSeconds` to -1 < 0. -/
theorem C2_timer_goes_negative :
    (runTicks (List.replicate 1801 true) initialSession).timer = -1 ∧
    (runTicks (List.replicate 1801 true) initialSession).timer < 0 := by
  have h := runTicks_timer (List.replicate 1801 true) initialSession
  rw [countP_id_replicate_true] at h
  constructor
  · rw [h]; rfl
  · rw [h]; decide

/-- C3 as stated is false: on a tick where the captured detector handle is
absent, `detectFace` does not call `requestAnimationFrame` — the call on
source line 99 sits inside `if (faceLandmarker)` — so the loop does not
re-arm and there is no next tick to re-check on. -/
theorem C3_counterexample :
    (detectFaceTick (α := Unit) none [[()]] initialSession).rearm = false :=
  rfl

/-- C3 amended: the next tick is scheduled on every tick on which the
captured detector handle is present, regardless of the detection outcome;
but on a tick with an absent handle, although nothing is drawn and the timer
state is untouched, the loop does not re-arm either — the re-arm chain stops
there instead of re-checking on a next tick. -/
theorem C3_amended_rearm_iff_handle (faces : List (List Unit))
    (s : SessionState) :
    (detectFaceTick (some ()) faces s).rearm = true ∧
    (detectFaceTick (α := Unit) none faces s).rearm = false ∧
    (detectFaceTick (α := Unit) none faces s).session = s ∧
    (detectFaceTick (α := Unit) none faces s).ops = [] := by
  refine ⟨?_, rfl, rfl, rfl⟩
  cases faces <;> rfl

/-- C4: at most one asynchronous detection call is outstanding at any time:
in the event trace of any frame-loop chain, a `detectForVideo` call is only
ever issued when the previous one has already resolved, because the loop
re-arms only after the awaited call completes. -/
theorem C4_single_flight (captured : Option Unit) (n : Nat) :
    singleFlight 0 (frameLoopTrace captured n) = true := by
  induction n with
  | zero => rfl
  | succ k ih => cases captured <;> simp [frameLoopTrace, singleFlight, ih]

/-- C5 as stated is false: `detectFace` closes over the `faceLandmarker`
value of the render that armed it. Arming the loop while the handle is still
absent and then completing detector initialization (current shared handle
present) leaves every subsequent tick reading the captured `none`: no
detection runs, nothing is drawn, and the loop does not re-arm — the
late-set handle is never picked up, although the spec's re-reading behaviour
would see it. -/
theorem C5_counterexample :
    tickHandle (armDetectFace none) (some ()) = none ∧
    detectFaceTick (tickHandle (armDetectFace none) (some ())) [[()]]
        initialSession
      = { session := initialSession, ops := [], rearm := false } ∧
    tickHandleSpecReread (armDetectFace none) (some ()) = some () :=
  ⟨rfl, rfl, rfl⟩

/-- C5 amended: on every tick the frame loop uses the detector handle value
captured when the loop was armed and ignores the current shared value; in
particular, on a chain armed while the handle was absent, later completion
of initialization is not picked up and the ticks do nothing. -/
theorem C5_amended_captured_handle (armedAt current : Option Unit)
    (faces : List (List Unit)) (s : SessionState) :
    tickHandle (armDetectFace armedAt) current = armedAt ∧
    detectFaceTick (tickHandle (armDetectFace none) current) faces s
      = { session := s, ops := [], rearm := false } :=
  ⟨rfl, rfl⟩

/-- C6 as stated is false: teardown clears the one-second interval (the
timer effect's cleanup), but nothing cancels the frame loop's pending
`requestAnimationFrame` callback or removes the `loadeddata` listener. A
still-armed frame tick that detects a face after teardown mutates the
session state, flipping `timerActive` from false to true, and re-arms. -/
theorem C6_counterexample :
    (sysFrameTick [[()]]
        (teardown { session := initialSession, mounted := true,
                    intervalLive := false, frameArmed := true,
                    capturedHandle := some () })).session.timerRunning = true ∧
    (teardown { session := initialSession, mounted := true,
                intervalLive := false, frameArmed := true,
                capturedHandle := some () }).session.timerRunning = false ∧
    (teardown { session := initialSession, mounted := true,
                intervalLive := false, frameArmed := true,
                capturedHandle := some () }).mounted = false :=
  ⟨rfl, rfl, rfl⟩

/-- C6 amended: teardown cancels the one-second timer interval — after
teardown an interval tick changes nothing — but it does not cancel the frame
loop's re-arm chain: a tick of a chain that was armed with a present
captured handle still sets `timerActive` to the detection outcome and
re-arms, even after teardown. -/
theorem C6_amended_teardown (s : Sys) (faces : List (List Unit))
    (harm : s.frameArmed = true) (hcap : s.capturedHandle = some ()) :
    sysIntervalTick (teardown s) = teardown s ∧
    (sysFrameTick faces (teardown s)).session.timerRunning = !faces.isEmpty ∧
    (sysFrameTick faces (teardown s)).frameArmed = true := by
  refine ⟨?_, ?_, ?_⟩
  · simp [sysIntervalTick, teardown]
  · cases faces <;>
      simp [sysFrameTick, teardown, harm, hcap, detectFaceTick,
        applyDetectionOutcome]
  · cases faces <;>
      simp [sysFrameTick, teardown, harm, hcap, detectFaceTick,
        applyDetectionOutcome]

/-- Witness for the amended C6 at a concrete post-teardown system state. -/
theorem C6_amended_teardown_witness :
    ({ session := initialSession, mounted := true, intervalLive := true,
       frameArmed := true, capturedHandle := some () } : Sys).frameArmed
        = true ∧
    ({ session := initialSession, mounted := true, intervalLive := true,
       frameArmed := true, capturedHandle := some () } : Sys).capturedHandle
        = some () ∧
    (sysIntervalTick (teardown
        { session := initialSession, mounted := true, intervalLive := true,
          frameArmed := true, capturedHandle := some () })
      = teardown
        { session := initialSession, mounted := true, intervalLive := true,
          frameArmed := true, capturedHandle := some () } ∧
     (sysFrameTick [[()]] (teardown
        { session := initialSession, mounted := true, intervalLive := true,
          frameArmed := true, capturedHandle := some () })).session.timerRunning
        = !([[()]] : List (List Unit)).isEmpty ∧
     (sysFrameTick [[()]] (teardown
        { session := initialSession, mounted := true, intervalLive := true,
          frameArmed := true, capturedHandle := some () })).frameArmed
        = true) :=
  ⟨rfl, rfl,
    C6_amended_teardown
      { session := initialSession, mounted := true, intervalLive := true,
        frameArmed := true, capturedHandle := some () } [[()]] rfl rfl⟩

/-- C7: a frame-loop tick on which the detector handle is absent performs no
canvas mutation — no clear, no frame draw, no landmark draw — and leaves
the timer state (both `timerActive` and `remainingSeconds`) unchanged. -/
theorem C7_absent_handle_no_effect (faces : List (List Unit))
    (s : SessionState) :
    (detectFaceTick (α := Unit) none faces s).ops = [] ∧
    (detectFaceTick (α := Unit) none faces s).session.timerRunning
        = s.timerRunning ∧
    (detectFaceTick (α := Unit) none faces s).session.timer = s.timer :=
  ⟨rfl, rfl, rfl⟩

/-- C8: for every `remainingSeconds` s ≥ 0 the displayed string equals the
spec's `floor(s/60) ++ ":" ++ pad2(s mod 60)`; in particular s = 1800
renders "30:00", s = 59 renders "0:59", and s = 0 renders "0:00". -/
theorem C8_display_format (s : Nat) :
    displayTime (s : Int) = specFormat s ∧
    displayTime 1800 = "30:00" ∧ displayTime 59 = "0:59" ∧
    displayTime 0 = "0:00" := by
  refine ⟨?_, rfl, rfl, rfl⟩
  have h : displayTime (s : Int)
      = Nat.repr (s / 60) ++ ":" ++ padStart2 (Nat.repr (s % 60)) := by
    unfold displayTime secondsField
    rw [show jsFloorDiv60 (s : Int) = ((s / 60 : Nat) : Int) from
      (Int.ofNat_fdiv s 60).symm]
    rfl
  have h2 : specFormat s
      = Nat.repr (s / 60) ++ ":" ++
          (if s % 60 < 10 then "0" ++ Nat.repr (s % 60)
           else Nat.repr (s % 60)) := rfl
  rw [h, h2, padStart2_repr_lt_60 (s % 60) (Nat.mod_lt s (by norm_num))]

/-- C9 as stated is false at `remainingSeconds` = -60 (reachable, since the
decrement is unclamped): JavaScript renders it as "-1:00" —
`Math.floor(-60/60) = -1`, and the remainder `-0` prints as "0", padded to
"00" — so this negative value is displayed with a two-digit zero-padded
seconds field after the colon. The claim's own examples do hold, see the
amended theorem. -/
theorem C9_counterexample :
    displayTime (-60) = "-1:00" ∧
    hasTwoDigitSecondsField (displayTime (-60)) = true := by
  constructor
  · rfl
  · decide

/-- C9 amended: for negative `remainingSeconds` the display is produced by
`Math.floor(s/60)` and the signed remainder `s % 60` — s = -1 renders
"-1:-1" and s = -61 renders "-2:-1" — and for every s < 0 whose remainder
is nonzero the seconds field carries a minus sign, so it is not a two-digit
zero-padded digit field; only at negative multiples of 60 is the seconds
field the zero-padded "00". -/
theorem C9_amended_negative_display (s : Int) (hneg : s < 0)
    (hmod : jsMod60 s ≠ 0) :
    displayTime s = toString (jsFloorDiv60 s) ++ ":" ++ secondsField s ∧
    isTwoPaddedDigits (secondsField s) = false ∧
    displayTime (-1) = "-1:-1" ∧ displayTime (-61) = "-2:-1" := by
  refine ⟨rfl, ?_, rfl, rfl⟩
  obtain ⟨m, rfl⟩ : ∃ m, s = Int.negSucc m := by
    cases s with
    | ofNat k =>
        exact absurd hneg (Int.not_lt.mpr (Int.ofNat_eq_coe ▸
          Int.ofNat_nonneg k))
    | negSucc m => exact ⟨m, rfl⟩
  have hmod' : (m + 1) % 60 ≠ 0 := by
    intro h0
    apply hmod
    show -((((m + 1) % 60 : Nat)) : Int) = 0
    rw [h0]
    rfl
  obtain ⟨k, hk⟩ : ∃ k, (m + 1) % 60 = k + 1 :=
    ⟨(m + 1) % 60 - 1, by omega⟩
  have hk59 : k < 59 := by
    have := Nat.mod_lt (m + 1) (y := 60) (by norm_num)
    omega
  have hrep : jsMod60 (Int.negSucc m) = Int.negSucc k := by
    show -((((m + 1) % 60 : Nat)) : Int) = Int.negSucc k
    rw [hk, Int.negSucc_eq]
    push_cast
    ring
  show isTwoPaddedDigits (padStart2 (toString (jsMod60 (Int.negSucc m))))
      = false
  rw [hrep]
  exact isTwoPaddedDigits_negSucc k hk59

/-- Witness for the amended C9 at the concrete value -61. -/
theorem C9_amended_negative_display_witness :
    (-61 : Int) < 0 ∧ jsMod60 (-61) ≠ 0 ∧
    (displayTime (-61)
        = toString (jsFloorDiv60 (-61)) ++ ":" ++ secondsField (-61) ∧
     isTwoPaddedDigits (secondsField (-61)) = false ∧
     displayTime (-1) = "-1:-1" ∧ displayTime (-61) = "-2:-1") :=
  ⟨by decide, by decide, C9_amended_negative_display (-61) (by decide)
    (by decide)⟩

/-- C10: the `clearInterval` inside the paused else-if branch of the timer
effect never executes — whenever that branch runs, the effect's local
`interval` variable is still null — so for every value of `timerRunning` and
`timer`, neither the body's actions nor the cleanup of the body's returned
interval ever contain the in-body clear; the interval is only ever cancelled
by the cleanup function. -/
theorem C10_clearInterval_in_body_unreachable (r : Bool) (t : Int) :
    EffectAct.clearInBody ∉ (timerEffectBody r t).2 ∧
    (timerEffectBody false t).1 = none ∧
    EffectAct.clearInBody ∉ timerEffectCleanup (timerEffectBody r t).1 := by
  cases r <;> by_cases h : t = 0 <;>
    simp [timerEffectBody, timerEffectCleanup, h]

end WebcamComponent
